import Mathlib

/-!
Shallow embedding of Servo's style resolver ("Stylist") from
`src/components/style/selector_matching.rs`, together with theorems that
check the natural-language specification against it.

External collaborators (the rust-selectors crate's `SelectorMap`, the
`properties::cascade` value-computation step, the stylesheet data type from
`stylesheets.rs`) are not part of the supplied source; where a definition
below models one of them it says so in its doc comment and follows the
spec's description of that interface.
-/

namespace Servo

/-- A property declaration, modelled as an opaque token: the cascade core
never inspects individual declarations, it only moves blocks of them. -/
abbrev PropertyDeclaration := Nat

/-- Pseudo-element identity (`Impl::PseudoElement`), modelled as an opaque
identifier. -/
abbrev PseudoElement := Nat

/-- A device, modelled by its viewport size: the only device datum this core
reads is `au_viewport_size`, and media queries are functions of the device. -/
abbrev Device := Nat

/-- A media query, modelled from the spec as its evaluation function on
devices (`media_rule.evaluate(&device)`). -/
abbrev MediaQuery := Device → Bool

/-- `selectors::matching::DeclarationBlock`: a declaration payload tagged
with the specificity and source order of its originating rule. -/
structure DeclarationBlock where
  specificity : Nat
  declarations : List PropertyDeclaration
  source_order : Nat
deriving DecidableEq, Repr

/-- Modelled from the external selectors crate interface used at the call
sites in `push_applicable_declarations`: `DeclarationBlock::from_declarations`
wraps a payload with zero specificity and zero source order (style-attribute
blocks are not rule-indexed, so those fields are unused for them). -/
def DeclarationBlock.from_declarations (decls : List PropertyDeclaration) :
    DeclarationBlock :=
  { specificity := 0, declarations := decls, source_order := 0 }

/-- A compiled selector, as stored on a parsed style rule. The compound
selector chain itself lives in the external selectors crate; we model it as
an opaque identifier plus the attributes the resolver reads from it:
its optional pseudo-element tag, its specificity, whether it is a universal
selector (for `get_universal_rules`), and whether matching it disables
style sharing (the selectors crate clears the shareable flag for selectors
that are not simple enough). -/
structure Selector where
  compound : Nat
  pseudo_element : Option PseudoElement
  specificity : Nat
  universal : Bool
  prevents_sharing : Bool
deriving DecidableEq, Repr

/-- `selectors::matching::Rule`: a compiled selector plus its declaration
block. -/
structure Rule where
  selector : Selector
  declarations : DeclarationBlock
deriving DecidableEq, Repr

/-- An element, as seen through the capabilities the resolver uses: which
compound selectors it matches (the external right-to-left matcher, modelled
by a set of matched selector identifiers), and the presentational-hint
declaration blocks its legacy attributes synthesize. -/
structure Element where
  matched : List Nat
  preshints : List DeclarationBlock
deriving DecidableEq, Repr

/-- Whether an element matches a stored rule's selector. Modelled from the
spec (§4.1): exact matching is external; the optional bloom filter only
rejects candidates that are then re-verified exactly, so it does not change
the match relation. -/
def selectorMatches (e : Element) (sel : Selector) : Bool :=
  e.matched.contains sel.compound

/-- The (specificity, source order) ordering key on declaration blocks:
lower specificity first, then earlier source order. -/
def blockKeyLe (a b : DeclarationBlock) : Prop :=
  a.specificity < b.specificity ∨
    (a.specificity = b.specificity ∧ a.source_order ≤ b.source_order)

/-- The same ordering lifted to stored rules. -/
def ruleLe (a b : Rule) : Prop :=
  blockKeyLe a.declarations b.declarations

instance : DecidableRel blockKeyLe := fun a b => by
  unfold blockKeyLe
  infer_instance

instance : DecidableRel ruleLe := fun a b => by
  unfold ruleLe blockKeyLe
  infer_instance

instance : IsTotal Rule ruleLe := by
  constructor
  intro a b
  unfold ruleLe blockKeyLe
  omega

instance : IsTrans Rule ruleLe := by
  constructor
  intro a b c
  unfold ruleLe blockKeyLe
  omega

/-- `selectors::matching::SelectorMap`. Modelled from the spec (§4.1): the
hash-bucketing by fastest discriminating component is an internal
performance device; observationally the map is the collection of inserted
rules, queried by exact matching. -/
structure SelectorMap where
  rules : List Rule
deriving DecidableEq, Repr

def SelectorMap.new : SelectorMap := ⟨[]⟩

def SelectorMap.insert (m : SelectorMap) (r : Rule) : SelectorMap :=
  ⟨m.rules ++ [r]⟩

/-- The rules of a map matching a given element. -/
def matchingRules (m : SelectorMap) (e : Element) : List Rule :=
  m.rules.filter (fun r => selectorMatches e r.selector)

/-- The declaration blocks a map delivers for an element: matching rules in
ascending (specificity, source order) order. -/
def matchedDecls (m : SelectorMap) (e : Element) : List DeclarationBlock :=
  (List.insertionSort ruleLe (matchingRules m e)).map (fun r => r.declarations)

/-- Whether matching the rules of this map against the element leaves the
element shareable (no matched selector disables sharing). -/
def shareAllowed (m : SelectorMap) (e : Element) : Bool :=
  (matchingRules m e).all (fun r => !r.selector.prevents_sharing)

/-- Modelled from the spec: `SelectorMap::get_all_matching_rules` lives in
the external rust-selectors crate. Per §4.1 and §4.3 it appends every rule
whose selector matches the element, in ascending (specificity, source
order) order, and matching may clear — never set — the shareable flag. The
bloom filter argument only prunes candidates that are re-verified exactly,
so it is semantically inert. -/
def get_all_matching_rules (m : SelectorMap) (e : Element) (bf : Option Unit)
    (out : List DeclarationBlock) (shareable : Bool) :
    List DeclarationBlock × Bool :=
  (out ++ matchedDecls m e, shareable && shareAllowed m e)

/-- Modelled from the spec: `SelectorMap::get_universal_rules` (external
crate) appends the rules keyed as universal, in ascending (specificity,
source order) order. -/
def get_universal_rules (m : SelectorMap) : List DeclarationBlock :=
  (List.insertionSort ruleLe
    (m.rules.filter (fun r => r.selector.universal))).map
    (fun r => r.declarations)

/-- Stylesheet origin (`stylesheets::Origin`). -/
inductive Origin where
  | UserAgent
  | Author
  | User
deriving DecidableEq, Repr

/-- Rule importance slot: which of the two `SelectorMap`s of an origin a
rule entry goes to. -/
inductive Priority where
  | normal
  | important
deriving DecidableEq, Repr

/-- A parsed style rule: its selector list and its declaration block, split
into normal and `!important` sub-blocks. -/
structure StyleRule where
  selectors : List Selector
  normal : List PropertyDeclaration
  important : List PropertyDeclaration
deriving DecidableEq, Repr

/-- A CSS rule of a stylesheet: a style rule, a media rule guarding a block
of style rules, or a viewport rule (modelled by the size it specifies). -/
inductive CSSRule where
  | style (sr : StyleRule)
  | media (mq : MediaQuery) (body : List StyleRule)
  | viewport (size : Nat)

/-- A parsed stylesheet: its origin, the media query attached to the whole
sheet (evaluated by `is_effective_for_device`), and its rule list. The
concrete `Stylesheet` type lives in `stylesheets.rs`, outside the supplied
source; this models the interface the resolver consumes. -/
structure Stylesheet where
  origin : Origin
  media : MediaQuery
  rules : List CSSRule

/-- Modelled from the spec: a stylesheet is skipped entirely when its media
query fails for the current device. -/
def Stylesheet.is_effective_for_device (s : Stylesheet) (d : Device) : Bool :=
  s.media d

/-- Modelled from the spec: `stylesheet.effective_rules(&device).style()` —
the style rules of the sheet, flattening media rules whose query holds for
the device, in source order. -/
def effectiveStyleRules (s : Stylesheet) (d : Device) : List StyleRule :=
  s.rules.flatMap (fun r =>
    match r with
    | .style sr => [sr]
    | .media mq body => if mq d then body else []
    | .viewport _ => [])

/-- Modelled from the spec: `stylesheet.rules().media()` — every media rule
of the sheet, with no effectiveness filtering. -/
def mediaRules (s : Stylesheet) : List MediaQuery :=
  s.rules.filterMap (fun r =>
    match r with
    | .media mq _ => some mq
    | _ => none)

/-- Modelled from the spec: `stylesheet.effective_rules(&device).viewport()`
— the viewport rules of the sheet. -/
def viewportRules (s : Stylesheet) : List Nat :=
  s.rules.filterMap (fun r =>
    match r with
    | .viewport size => some size
    | _ => none)

/-- Modelled from the spec (§4.6): cascading the `@viewport` rules of the
given stylesheets and deriving the resulting constraints
(`ViewportRuleCascade` + `ViewportConstraints::maybe_new`): the last
specified viewport size wins; no viewport rule means no constraints. -/
def cascadedViewportSize (sheets : List Stylesheet) (d : Device) : Option Nat :=
  (sheets.flatMap (fun s =>
    if s.is_effective_for_device d then viewportRules s else [])).getLast?

/-- `PerOriginSelectorMap`: the (normal, important) `SelectorMap` pair of
one origin. -/
structure PerOriginSelectorMap where
  normal : SelectorMap
  important : SelectorMap
deriving DecidableEq, Repr

def PerOriginSelectorMap.new : PerOriginSelectorMap :=
  { normal := SelectorMap.new, important := SelectorMap.new }

/-- `map.$priority.insert(rule)` on a per-origin pair. -/
def PerOriginSelectorMap.insertPri (m : PerOriginSelectorMap) (pri : Priority)
    (r : Rule) : PerOriginSelectorMap :=
  match pri with
  | .normal => { m with normal := m.normal.insert r }
  | .important => { m with important := m.important.insert r }

/-- `PerPseudoElementSelectorMap`: the three per-origin pairs of one
pseudo-element scope. -/
structure PerPseudoElementSelectorMap where
  user_agent : PerOriginSelectorMap
  author : PerOriginSelectorMap
  user : PerOriginSelectorMap
deriving DecidableEq, Repr

def PerPseudoElementSelectorMap.new : PerPseudoElementSelectorMap :=
  { user_agent := PerOriginSelectorMap.new,
    author := PerOriginSelectorMap.new,
    user := PerOriginSelectorMap.new }

/-- `borrow_for_origin` followed by the priority insert. -/
def PerPseudoElementSelectorMap.insertAt (m : PerPseudoElementSelectorMap)
    (origin : Origin) (pri : Priority) (r : Rule) :
    PerPseudoElementSelectorMap :=
  match origin with
  | .UserAgent => { m with user_agent := m.user_agent.insertPri pri r }
  | .Author => { m with author := m.author.insertPri pri r }
  | .User => { m with user := m.user.insertPri pri r }

/-- Association-list lookup, modelling `HashMap::get`. -/
def alistGet {α : Type} (l : List (Nat × α)) (k : Nat) : Option α :=
  match l with
  | [] => none
  | (k2, v) :: rest => if k2 = k then some v else alistGet rest k

/-- Association-list insert-or-replace, modelling `HashMap::insert`. -/
def alistPut {α : Type} (l : List (Nat × α)) (k : Nat) (v : α) :
    List (Nat × α) :=
  match l with
  | [] => [(k, v)]
  | (k2, v2) :: rest =>
    if k2 = k then (k2, v) :: rest else (k2, v2) :: alistPut rest k v

/-- Association-list removal, modelling `HashMap::remove`. -/
def alistRemove {α : Type} (l : List (Nat × α)) (k : Nat) :
    List (Nat × α) :=
  match l with
  | [] => []
  | (k2, v) :: rest => if k2 = k then rest else (k2, v) :: alistRemove rest k

/-- `HashMap::entry(k).or_insert_with(dflt)` followed by a mutation of the
entry: apply `f` to the stored value, inserting `f dflt` if absent. -/
def alistModify {α : Type} (l : List (Nat × α)) (k : Nat) (dflt : α)
    (f : α → α) : List (Nat × α) :=
  match l with
  | [] => [(k, f dflt)]
  | (k2, v) :: rest =>
    if k2 = k then (k2, f v) :: rest else (k2, v) :: alistModify rest k dflt f

/-- The static data the `SelectorImplExt` trait supplies to the stylist:
the eagerly cascaded pseudo-elements, the precomputed pseudo-elements, the
built-in user-agent/user stylesheets, and the quirks-mode stylesheet. -/
structure SelectorImplCtx where
  eager_pseudos : List PseudoElement
  precomputed_pseudos : List PseudoElement
  ua_stylesheets : List Stylesheet
  quirks_stylesheet : Option Stylesheet

/-- The `Stylist` state. `state_deps` models the `DependencySet` (defined in
`restyle_hints.rs`, outside the supplied source) by the list of compound
selectors noted into it, which is all the rebuild path writes to it. -/
structure Stylist where
  device : Device
  viewport_constraints : Option Nat
  quirks_mode : Bool
  is_device_dirty : Bool
  element_map : PerPseudoElementSelectorMap
  pseudos_map : List (PseudoElement × PerPseudoElementSelectorMap)
  precomputed_pseudo_element_decls :
    List (PseudoElement × List DeclarationBlock)
  rules_source_order : Nat
  state_deps : List Nat
deriving DecidableEq, Repr

/-- `Stylist::new`. -/
def Stylist.new (ctx : SelectorImplCtx) (device : Device) : Stylist :=
  { device := device,
    viewport_constraints := none,
    quirks_mode := false,
    is_device_dirty := true,
    element_map := PerPseudoElementSelectorMap.new,
    pseudos_map := ctx.eager_pseudos.foldl
      (fun m p => alistPut m p PerPseudoElementSelectorMap.new) [],
    precomputed_pseudo_element_decls := [],
    rules_source_order := 0,
    state_deps := [] }

/-- One entry of the `append!` macro body: a `Rule` built from one selector
of a style rule, one priority's declarations, and the running source-order
counter. -/
def mkRule (sel : Selector) (decls : List PropertyDeclaration) (so : Nat) :
    Rule :=
  { selector := sel,
    declarations :=
      { specificity := sel.specificity,
        declarations := decls,
        source_order := so } }

/-- Routing of one rule entry: to the pseudo-element scope named by the
selector (created on demand, `entry(...).or_insert_with(...)`), or to the
element map, then to the (origin, priority) slot. -/
def Stylist.insertEntry (s : Stylist) (origin : Origin) (pri : Priority)
    (pseudo : Option PseudoElement) (r : Rule) : Stylist :=
  match pseudo with
  | some p =>
    { s with pseudos_map := (alistModify s.pseudos_map p
        PerPseudoElementSelectorMap.new (fun m => m.insertAt origin pri r)) }
  | none => { s with element_map := s.element_map.insertAt origin pri r }

/-- The `append!` macro for one priority of one style rule: skipped when
that priority's declarations are empty, otherwise one entry per selector,
all carrying the same source-order counter value. -/
def appendPriorityEntries (s : Stylist) (origin : Origin) (pri : Priority)
    (sr : StyleRule) (so : Nat) : Stylist :=
  let decls := match pri with | .normal => sr.normal | .important => sr.important
  if decls.isEmpty then s
  else sr.selectors.foldl
    (fun s sel => s.insertEntry origin pri sel.pseudo_element
      (mkRule sel decls so)) s

/-- The loop body of `add_stylesheet` for one style rule at counter value
`so`: append the normal entries, append the important entries, then note
every selector into the dependency set. -/
def addStyleRuleAt (origin : Origin) (sr : StyleRule) (so : Nat)
    (s : Stylist) : Stylist :=
  let s := appendPriorityEntries s origin .normal sr so
  let s := appendPriorityEntries s origin .important sr so
  { s with state_deps := s.state_deps ++ sr.selectors.map (fun sel => sel.compound) }

/-- The `each_precomputed_pseudo_element` pass at the end of
`add_stylesheet`: for each precomputed pseudo-element whose scope exists,
remove the scope and cache the universal user-agent declarations. -/
def precomputeStep (ctx : SelectorImplCtx) (s : Stylist) : Stylist :=
  ctx.precomputed_pseudos.foldl
    (fun s pseudo =>
      match alistGet s.pseudos_map pseudo with
      | some map =>
        let declarations :=
          get_universal_rules map.user_agent.normal ++
          get_universal_rules map.user_agent.important
        { s with
          pseudos_map := alistRemove s.pseudos_map pseudo,
          precomputed_pseudo_element_decls :=
            alistPut s.precomputed_pseudo_element_decls pseudo declarations }
      | none => s) s

/-- `Stylist::add_stylesheet`. -/
def add_stylesheet (ctx : SelectorImplCtx) (s : Stylist)
    (sheet : Stylesheet) : Stylist :=
  if !(sheet.is_effective_for_device s.device) then s
  else
    let start : Stylist × Nat := (s, s.rules_source_order)
    let folded := (effectiveStyleRules sheet s.device).foldl
      (fun p sr => (addStyleRuleAt sheet.origin sr p.2 p.1, p.2 + 1)) start
    let s := { folded.1 with rules_source_order := folded.2 }
    precomputeStep ctx s

/-- The rule-storage reset at the start of a rebuild: fresh element map,
fresh eager pseudo-element scopes, empty precomputed cache, counter reset
to zero, cleared dependency set. -/
def clearRuleStorage (ctx : SelectorImplCtx) (s : Stylist) : Stylist :=
  { s with
    element_map := PerPseudoElementSelectorMap.new,
    pseudos_map := ctx.eager_pseudos.foldl
      (fun m p => alistPut m p PerPseudoElementSelectorMap.new) [],
    precomputed_pseudo_element_decls := [],
    rules_source_order := 0,
    state_deps := [] }

/-- `Stylist::update`. -/
def update (ctx : SelectorImplCtx) (s : Stylist)
    (doc_stylesheets : List Stylesheet) (stylesheets_changed : Bool) :
    Stylist × Bool :=
  if !(s.is_device_dirty || stylesheets_changed) then (s, false)
  else
    let s := clearRuleStorage ctx s
    let s := ctx.ua_stylesheets.foldl (add_stylesheet ctx) s
    let s :=
      if s.quirks_mode then
        match ctx.quirks_stylesheet with
        | some q => add_stylesheet ctx s q
        | none => s
      else s
    let s := doc_stylesheets.foldl (add_stylesheet ctx) s
    ({ s with is_device_dirty := false }, true)

/-- The device against which media rules are compared in `set_device`: the
supplied device, overridden by the cascaded viewport constraints (computed
against the old device) when any exist. -/
def constrainedDevice (s : Stylist) (device : Device)
    (stylesheets : List Stylesheet) : Device :=
  match cascadedViewportSize stylesheets s.device with
  | some size => size
  | none => device

/-- `Stylist::set_device`. -/
def set_device (s : Stylist) (device : Device)
    (stylesheets : List Stylesheet) : Stylist :=
  let vc := cascadedViewportSize stylesheets s.device
  let device2 := constrainedDevice s device stylesheets
  { s with
    viewport_constraints := vc,
    is_device_dirty := s.is_device_dirty ||
      stylesheets.any (fun sheet =>
        (mediaRules sheet).any (fun mq => mq s.device != mq device2)),
    device := device2 }

/-- `Stylist::set_quirks_mode`. -/
def set_quirks_mode (s : Stylist) (enabled : Bool) : Stylist :=
  { s with quirks_mode := enabled }

/-- The ways `push_applicable_declarations` can abort instead of returning:
the two `assert!` contract violations, and the panic of the unchecked
`unwrap` on a pseudo-element scope missing from `pseudos_map`. -/
inductive PushError where
  | deviceDirty
  | styleAttrWithPseudo
  | missingPseudoMap
deriving DecidableEq, Repr

/-- The inline style attribute (`PropertyDeclarationBlock`): its normal and
important declaration sub-blocks. -/
structure PropertyDeclarationBlock where
  normal : List PropertyDeclaration
  important : List PropertyDeclaration
deriving DecidableEq, Repr

/-- The selector-map scope a lookup targets: the scope of the supplied
pseudo-element when one is given (absent entries are a panic in the source,
`self.pseudos_map.get(pseudo).unwrap()`), else the element map. -/
def targetMap (s : Stylist) :
    Option PseudoElement → Option PerPseudoElementSelectorMap
  | some p => alistGet s.pseudos_map p
  | none => some s.element_map

/-- `Stylist::push_applicable_declarations`. A total rendering: the
`assert!` failures and the missing-scope `unwrap` panic become explicit
error results. -/
def push_applicable_declarations (s : Stylist) (element : Element)
    (parent_bf : Option Unit) (style_attribute : Option PropertyDeclarationBlock)
    (pseudo_element : Option PseudoElement)
    (applicable_declarations : List DeclarationBlock) :
    Except PushError (List DeclarationBlock × Bool) :=
  if s.is_device_dirty then .error .deviceDirty
  else if style_attribute.isSome && pseudo_element.isSome then
    .error .styleAttrWithPseudo
  else
    match targetMap s pseudo_element with
    | none => .error .missingPseudoMap
    | some map =>
      let shareable := true
      let st := get_all_matching_rules map.user_agent.normal element parent_bf
        applicable_declarations shareable
      let length := st.1.length
      let out := st.1 ++ element.preshints
      let shareable := if out.length ≠ length then false else st.2
      let st := get_all_matching_rules map.user.normal element parent_bf
        out shareable
      let st := get_all_matching_rules map.author.normal element parent_bf
        st.1 st.2
      let st :=
        match style_attribute with
        | some sa =>
          (st.1 ++ [DeclarationBlock.from_declarations sa.normal], false)
        | none => st
      let st := get_all_matching_rules map.author.important element parent_bf
        st.1 st.2
      let st :=
        match style_attribute with
        | some sa =>
          (st.1 ++ [DeclarationBlock.from_declarations sa.important], false)
        | none => st
      let st := get_all_matching_rules map.user.important element parent_bf
        st.1 st.2
      let st := get_all_matching_rules map.user_agent.important element
        parent_bf st.1 st.2
      .ok st

/-- Modelled from the spec (§1, §4.4): the external value-computation step
`properties::cascade` is out of scope; we model its result as an opaque
record of its inputs (viewport size, ordered declaration list, parent). -/
inductive ComputedValues where
  | cascade (viewport_size : Nat) (declarations : List DeclarationBlock)
      (parent : Option ComputedValues)

/-- The cascade call as used by the stylist. -/
def properties_cascade (viewport_size : Nat)
    (declarations : List DeclarationBlock) (parent : Option ComputedValues) :
    ComputedValues :=
  .cascade viewport_size declarations parent

/-- `Stylist::precomputed_values_for_pseudo`. -/
def precomputed_values_for_pseudo (s : Stylist) (pseudo : PseudoElement)
    (parent : Option ComputedValues) : Option ComputedValues :=
  match alistGet s.precomputed_pseudo_element_decls pseudo with
  | some declarations => some (properties_cascade s.device declarations parent)
  | none => parent

/-- `Stylist::lazily_compute_pseudo_element_style`. The inner cascade
lookup's abort conditions surface as the `Except` error. -/
def lazily_compute_pseudo_element_style (s : Stylist) (element : Element)
    (pseudo : PseudoElement) (parent : ComputedValues) :
    Except PushError (Option ComputedValues) :=
  if (alistGet s.pseudos_map pseudo).isNone then .ok none
  else
    match push_applicable_declarations s element none none (some pseudo) [] with
    | .error err => .error err
    | .ok st =>
      .ok (some (properties_cascade s.device st.1 (some parent)))

/-- The declaration segment step 4 of the source appends for the style
attribute: its normal sub-block, when an attribute is supplied. -/
def saNormalSeg (sa : Option PropertyDeclarationBlock) :
    List DeclarationBlock :=
  match sa with
  | some b => [DeclarationBlock.from_declarations b.normal]
  | none => []

/-- The declaration segment step 6 of the source appends for the style
attribute: its important sub-block, when an attribute is supplied. -/
def saImportantSeg (sa : Option PropertyDeclarationBlock) :
    List DeclarationBlock :=
  match sa with
  | some b => [DeclarationBlock.from_declarations b.important]
  | none => []

/-- The shareable flag as `push_applicable_declarations` threads it:
starting from true, each matching step may clear it, the presentational
hints clear it when any hint was appended, and each style-attribute append
clears it. -/
def pushShareable (m : PerPseudoElementSelectorMap) (e : Element)
    (sa : Option PropertyDeclarationBlock) : Bool :=
  let sh := true && shareAllowed m.user_agent.normal e
  let sh := if e.preshints.isEmpty then sh else false
  let sh := sh && shareAllowed m.user.normal e
  let sh := sh && shareAllowed m.author.normal e
  let sh := if sa.isSome then false else sh
  let sh := sh && shareAllowed m.author.important e
  let sh := if sa.isSome then false else sh
  let sh := sh && shareAllowed m.user.important e
  sh && shareAllowed m.user_agent.important e

/-- The output order the spec's seven numbered steps assert, written from
the spec's words for comparison with the source: the spec places the
style attribute's important declarations (its step 6) before the author
important rules (the start of its step 7). -/
def specOrderDeclarations (m : PerPseudoElementSelectorMap) (e : Element)
    (sa : Option PropertyDeclarationBlock) (init : List DeclarationBlock) :
    List DeclarationBlock :=
  init ++ matchedDecls m.user_agent.normal e ++ e.preshints
    ++ matchedDecls m.user.normal e ++ matchedDecls m.author.normal e
    ++ saNormalSeg sa ++ saImportantSeg sa
    ++ matchedDecls m.author.important e
    ++ matchedDecls m.user.important e
    ++ matchedDecls m.user_agent.important e

/-- Generic preservation of a projection along a left fold. -/
theorem foldl_proj_eq {α β γ : Type} (f : β → α → β) (g : β → γ)
    (hf : ∀ s a, g (f s a) = g s) (l : List α) (s : β) :
    g (l.foldl f s) = g s := by
  induction l generalizing s with
  | nil => rfl
  | cons a t ih => rw [List.foldl_cons, ih, hf]

/-- When the stylist is clean, the exclusivity contract holds, and the
target scope resolves, the cascade lookup returns the concatenation of the
nine appended segments in the source's order, together with the threaded
shareable flag. -/
theorem push_ok_decomp (s : Stylist) (e : Element) (bf : Option Unit)
    (sa : Option PropertyDeclarationBlock) (pe : Option PseudoElement)
    (init : List DeclarationBlock) (m : PerPseudoElementSelectorMap)
    (hd : s.is_device_dirty = false)
    (hm : targetMap s pe = some m)
    (hx : (sa.isSome && pe.isSome) = false) :
    push_applicable_declarations s e bf sa pe init =
      .ok (init ++ matchedDecls m.user_agent.normal e ++ e.preshints
        ++ matchedDecls m.user.normal e ++ matchedDecls m.author.normal e
        ++ saNormalSeg sa ++ matchedDecls m.author.important e
        ++ saImportantSeg sa ++ matchedDecls m.user.important e
        ++ matchedDecls m.user_agent.important e,
        pushShareable m e sa) := by
  cases sa with
  | none =>
    cases hp : e.preshints with
    | nil =>
      simp [push_applicable_declarations, get_all_matching_rules, hd, hm, hx,
        hp, pushShareable, saNormalSeg, saImportantSeg, List.append_assoc]
    | cons a t =>
      simp [push_applicable_declarations, get_all_matching_rules, hd, hm, hx,
        hp, pushShareable, saNormalSeg, saImportantSeg, List.append_assoc]
  | some b =>
    cases pe with
    | some p => simp at hx
    | none =>
      cases hp : e.preshints with
      | nil =>
        simp [push_applicable_declarations, get_all_matching_rules, hd, hm,
          hp, pushShareable, saNormalSeg, saImportantSeg, List.append_assoc]
      | cons a t =>
        simp [push_applicable_declarations, get_all_matching_rules, hd, hm,
          hp, pushShareable, saNormalSeg, saImportantSeg, List.append_assoc]

/-- C1 (amended): a cascade lookup appends declarations as the concatenation
of the steps in the source's order — (1) user-agent normal rules, (2)
presentational hints, (3) user normal rules, (4) author normal rules, (5)
the style attribute's normal declarations, (6) author important rules, (7)
the style attribute's important declarations, then user important rules,
then user-agent important rules — so declarations of an earlier step never
appear after declarations of a later step in this order. (The claim's
order, with the style attribute's important declarations before the author
important rules, is refuted by `spec_C1_counterexample`.) -/
theorem spec_C1_step_order (s : Stylist) (e : Element) (bf : Option Unit)
    (sa : Option PropertyDeclarationBlock) (pe : Option PseudoElement)
    (init : List DeclarationBlock) (m : PerPseudoElementSelectorMap)
    (hd : s.is_device_dirty = false)
    (hm : targetMap s pe = some m)
    (hx : (sa.isSome && pe.isSome) = false) :
    push_applicable_declarations s e bf sa pe init =
      .ok (init ++ matchedDecls m.user_agent.normal e ++ e.preshints
        ++ matchedDecls m.user.normal e ++ matchedDecls m.author.normal e
        ++ saNormalSeg sa ++ matchedDecls m.author.important e
        ++ saImportantSeg sa ++ matchedDecls m.user.important e
        ++ matchedDecls m.user_agent.important e,
        pushShareable m e sa) :=
  push_ok_decomp s e bf sa pe init m hd hm hx

/-- C2 (amended): lazy pseudo-element style is `none` when the scope for
the pseudo-element was never created; otherwise it is the cascade of the
scoped lookup's declarations against the parent, with the style attribute
excluded — but with the element's presentational hints still appended (the
claim's exclusion of hints is refuted by `spec_C2_counterexample`). -/
theorem spec_C2_lazy_pseudo (s : Stylist) (e : Element) (p : PseudoElement)
    (parent : ComputedValues) (m : PerPseudoElementSelectorMap)
    (hd : s.is_device_dirty = false) :
    (alistGet s.pseudos_map p = none →
      lazily_compute_pseudo_element_style s e p parent = .ok none) ∧
    (alistGet s.pseudos_map p = some m →
      lazily_compute_pseudo_element_style s e p parent =
        .ok (some (properties_cascade s.device
          (matchedDecls m.user_agent.normal e ++ e.preshints
            ++ matchedDecls m.user.normal e ++ matchedDecls m.author.normal e
            ++ matchedDecls m.author.important e
            ++ matchedDecls m.user.important e
            ++ matchedDecls m.user_agent.important e)
          (some parent)))) := by
  constructor
  · intro h
    simp [lazily_compute_pseudo_element_style, h]
  · intro h
    have hpush := push_ok_decomp s e none none (some p) [] m hd
      (by simp [targetMap, h]) (by simp)
    simp [lazily_compute_pseudo_element_style, h, hpush, saNormalSeg,
      saImportantSeg]

/-- C4: within one rules step, the declarations delivered by the query are
in ascending (specificity, source order) order: in the segment a step
appends, any earlier block's key is less than or equal to any later
block's, so a matching rule with strictly smaller key appears strictly
earlier. -/
theorem spec_C4_step_sorted (m : SelectorMap) (e : Element) (bf : Option Unit)
    (out : List DeclarationBlock) (sh : Bool) :
    List.Pairwise blockKeyLe
      (((get_all_matching_rules m e bf out sh).1).drop out.length) := by
  have h1 : ((get_all_matching_rules m e bf out sh).1).drop out.length =
      matchedDecls m e := by
    simp [get_all_matching_rules]
  rw [h1]
  unfold matchedDecls
  have hs : List.Sorted ruleLe (List.insertionSort ruleLe (matchingRules m e)) :=
    List.sorted_insertionSort ruleLe _
  exact List.Pairwise.map _ (fun a b h => h) hs

/-- C5: when the device is not dirty and `changed` is false, `update`
returns false and the whole resolver state is untouched; after a
successful rebuild, a second call with the same stylesheets and
`changed = false` is such a no-op, so subsequent lookups read the same
state. -/
theorem spec_C5_update_noop (ctx : SelectorImplCtx) (s : Stylist)
    (sheets : List Stylesheet) :
    (s.is_device_dirty = false → update ctx s sheets false = (s, false)) ∧
    (∀ (changed : Bool) (s1 : Stylist),
      update ctx s sheets changed = (s1, true) →
      update ctx s1 sheets false = (s1, false)) := by
  constructor
  · intro hd
    simp [update, hd]
  · intro changed s1 h
    rw [update] at h
    split at h
    · exact absurd (congrArg Prod.snd h) (by simp)
    · have hd1 : s1.is_device_dirty = false := by
        have h1 := congrArg (fun p => (Prod.fst p).is_device_dirty) h
        simpa using h1.symm
      simp [update, hd1]

theorem insertEntry_quirks (s : Stylist) (origin : Origin) (pri : Priority)
    (ps : Option PseudoElement) (r : Rule) :
    (s.insertEntry origin pri ps r).quirks_mode = s.quirks_mode := by
  cases ps <;> rfl

theorem appendPriorityEntries_quirks (s : Stylist) (origin : Origin)
    (pri : Priority) (sr : StyleRule) (so : Nat) :
    (appendPriorityEntries s origin pri sr so).quirks_mode = s.quirks_mode := by
  cases pri <;>
    · simp only [appendPriorityEntries]
      split
      · rfl
      · exact foldl_proj_eq _ (fun st => st.quirks_mode)
          (fun st sel => insertEntry_quirks st origin _ sel.pseudo_element _)
          sr.selectors s

theorem addStyleRuleAt_quirks (origin : Origin) (sr : StyleRule) (so : Nat)
    (s : Stylist) :
    (addStyleRuleAt origin sr so s).quirks_mode = s.quirks_mode := by
  simp only [addStyleRuleAt]
  rw [show ∀ (t : Stylist) (ds : List Nat),
      ({ t with state_deps := ds } : Stylist).quirks_mode = t.quirks_mode
    from fun t ds => rfl]
  rw [appendPriorityEntries_quirks, appendPriorityEntries_quirks]

theorem precomputeStep_quirks (ctx : SelectorImplCtx) (s : Stylist) :
    (precomputeStep ctx s).quirks_mode = s.quirks_mode := by
  unfold precomputeStep
  refine foldl_proj_eq _ (fun st => st.quirks_mode) ?_ ctx.precomputed_pseudos s
  intro st p
  cases h : alistGet st.pseudos_map p <;> simp [h]

theorem add_stylesheet_quirks (ctx : SelectorImplCtx) (s : Stylist)
    (sheet : Stylesheet) :
    (add_stylesheet ctx s sheet).quirks_mode = s.quirks_mode := by
  unfold add_stylesheet
  split
  · rfl
  · rw [precomputeStep_quirks]
    have hf := foldl_proj_eq
      (fun (p : Stylist × Nat) sr => (addStyleRuleAt sheet.origin sr p.2 p.1, p.2 + 1))
      (fun p => p.1.quirks_mode)
      (fun p sr => addStyleRuleAt_quirks sheet.origin sr p.2 p.1)
      (effectiveStyleRules sheet s.device) (s, s.rules_source_order)
    simpa using hf

/-- C6: when `update` rebuilds (device dirty or `changed` set), it clears
all rule storage, the counter, and the dependency set, then folds the
stylesheets in the order user-agent built-ins, the quirks-mode sheet
exactly when quirks mode is enabled, then the document stylesheets in
sequence order; a stylesheet not effective for the current device is
skipped entirely; the result has the device-dirty flag cleared and the
call returns true. -/
theorem spec_C6_update_rebuild (ctx : SelectorImplCtx) (s : Stylist)
    (docs : List Stylesheet) (changed : Bool) (q : Stylesheet)
    (hre : (s.is_device_dirty || changed) = true)
    (hq : ctx.quirks_stylesheet = some q) :
    update ctx s docs changed =
      ({ (ctx.ua_stylesheets ++ (if s.quirks_mode then [q] else []) ++ docs).foldl
          (add_stylesheet ctx) (clearRuleStorage ctx s) with
          is_device_dirty := false }, true) ∧
    (∀ (s2 : Stylist) (sheet : Stylesheet),
      sheet.is_effective_for_device s2.device = false →
      add_stylesheet ctx s2 sheet = s2) := by
  constructor
  · have hqm : (List.foldl (add_stylesheet ctx) (clearRuleStorage ctx s)
        ctx.ua_stylesheets).quirks_mode = s.quirks_mode := by
      rw [foldl_proj_eq (add_stylesheet ctx) (fun st => st.quirks_mode)
        (fun st sheet => add_stylesheet_quirks ctx st sheet) ctx.ua_stylesheets
        (clearRuleStorage ctx s)]
      rfl
    rw [List.foldl_append, List.foldl_append]
    cases hqb : s.quirks_mode with
    | true => simp [update, hre, hq, hqm, hqb]
    | false => simp [update, hre, hq, hqm, hqb]
  · intro s2 sheet he
    simp [add_stylesheet, he]

/-- C7 (amended): the cascade lookup aborts with a contract violation when
the resolver is dirty, and when both a style attribute and a pseudo-element
are supplied; when neither precondition is violated and — additionally —
the targeted scope exists (a supplied pseudo-element has an entry in the
pseudo map), the call returns normally. (Without the scope-existence
condition, the claim's "returns normally" is refuted by
`spec_C7_counterexample`: the missing-scope unwrap panics.) -/
theorem spec_C7_push_contract (s : Stylist) (e : Element) (bf : Option Unit)
    (sa : Option PropertyDeclarationBlock) (pe : Option PseudoElement)
    (init : List DeclarationBlock) :
    (s.is_device_dirty = true →
      push_applicable_declarations s e bf sa pe init = .error .deviceDirty) ∧
    (s.is_device_dirty = false → sa.isSome = true → pe.isSome = true →
      push_applicable_declarations s e bf sa pe init =
        .error .styleAttrWithPseudo) ∧
    (s.is_device_dirty = false → (sa.isSome && pe.isSome) = false →
      (targetMap s pe).isSome = true →
      ∃ r, push_applicable_declarations s e bf sa pe init = .ok r) := by
  refine ⟨?_, ?_, ?_⟩
  · intro hd
    simp [push_applicable_declarations, hd]
  · intro hd hsa hpe
    simp [push_applicable_declarations, hd, hsa, hpe]
  · intro hd hx hsome
    obtain ⟨m, hm⟩ := Option.isSome_iff_exists.mp hsome
    exact ⟨_, push_ok_decomp s e bf sa pe init m hd hm hx⟩

/-- C8: `set_device` sets the dirty flag whenever some media rule of the
given stylesheets evaluates differently against the old device than
against the new viewport-constrained device, and never clears an
already-set dirty flag. -/
theorem spec_C8_set_device_dirty (s : Stylist) (device : Device)
    (sheets : List Stylesheet) :
    (s.is_device_dirty = true →
      (set_device s device sheets).is_device_dirty = true) ∧
    ((∃ sheet ∈ sheets, ∃ mq ∈ mediaRules sheet,
        mq s.device ≠ mq (constrainedDevice s device sheets)) →
      (set_device s device sheets).is_device_dirty = true) := by
  constructor
  · intro h
    simp [set_device, h]
  · rintro ⟨sheet, hsheet, mq, hmq, hne⟩
    simp only [set_device, Bool.or_eq_true]
    right
    refine List.any_eq_true.mpr ⟨sheet, hsheet, ?_⟩
    refine List.any_eq_true.mpr ⟨mq, hmq, ?_⟩
    exact bne_iff_ne.mpr hne

/-- C9: the shareable flag a cascade lookup returns starts true and is only
ever cleared: it ends true exactly when no presentational hint was
appended, no style attribute was supplied, and no matching step cleared it
— so appending any hint or style-attribute block forces false, and once
false it is never set back to true by any later step. -/
theorem spec_C9_shareable (s : Stylist) (e : Element) (bf : Option Unit)
    (sa : Option PropertyDeclarationBlock) (pe : Option PseudoElement)
    (init out : List DeclarationBlock) (sh : Bool)
    (m : PerPseudoElementSelectorMap)
    (hd : s.is_device_dirty = false)
    (hm : targetMap s pe = some m)
    (hx : (sa.isSome && pe.isSome) = false)
    (hok : push_applicable_declarations s e bf sa pe init = .ok (out, sh)) :
    sh = true ↔
      (e.preshints = [] ∧ sa = none ∧
        shareAllowed m.user_agent.normal e = true ∧
        shareAllowed m.user.normal e = true ∧
        shareAllowed m.author.normal e = true ∧
        shareAllowed m.author.important e = true ∧
        shareAllowed m.user.important e = true ∧
        shareAllowed m.user_agent.important e = true) := by
  have hdec := push_ok_decomp s e bf sa pe init m hd hm hx
  rw [hok] at hdec
  have hsh : sh = pushShareable m e sa := by
    have h2 := congrArg (fun r => (Except.toOption r).getD ([], false)) hdec
    simpa using congrArg Prod.snd h2
  subst hsh
  cases sa with
  | some b =>
    cases hp : e.preshints with
    | nil => simp [pushShareable, hp]
    | cons a t => simp [pushShareable, hp]
  | none =>
    cases hp : e.preshints with
    | nil =>
      simp [pushShareable, hp, Bool.and_eq_true, and_assoc]
    | cons a t =>
      simp [pushShareable, hp]

/-- The rules stored in one origin's pair of maps. -/
def PerOriginSelectorMap.rulesList (m : PerOriginSelectorMap) : List Rule :=
  m.normal.rules ++ m.important.rules

/-- The rules stored in one pseudo-element scope. -/
def PerPseudoElementSelectorMap.allRules (m : PerPseudoElementSelectorMap) :
    List Rule :=
  m.user_agent.rulesList ++ m.author.rulesList ++ m.user.rulesList

/-- Every rule entry stored anywhere in the stylist's rule storage. -/
def Stylist.allRules (s : Stylist) : List Rule :=
  s.element_map.allRules ++ s.pseudos_map.flatMap (fun kv => kv.2.allRules)

theorem mem_insertPri {r rule : Rule} (m : PerOriginSelectorMap)
    (pri : Priority) (h : r ∈ (m.insertPri pri rule).rulesList) :
    r ∈ m.rulesList ∨ r = rule := by
  cases pri <;>
    · simp only [PerOriginSelectorMap.insertPri, PerOriginSelectorMap.rulesList,
        SelectorMap.insert, List.mem_append, List.mem_singleton] at h ⊢
      tauto

theorem mem_insertAt {r rule : Rule} (m : PerPseudoElementSelectorMap)
    (origin : Origin) (pri : Priority)
    (h : r ∈ (m.insertAt origin pri rule).allRules) :
    r ∈ m.allRules ∨ r = rule := by
  cases origin with
  | UserAgent =>
    simp only [PerPseudoElementSelectorMap.insertAt,
      PerPseudoElementSelectorMap.allRules, List.mem_append] at h ⊢
    rcases h with (h | h) | h
    · rcases mem_insertPri _ _ h with h2 | h2 <;> tauto
    · tauto
    · tauto
  | Author =>
    simp only [PerPseudoElementSelectorMap.insertAt,
      PerPseudoElementSelectorMap.allRules, List.mem_append] at h ⊢
    rcases h with (h | h) | h
    · tauto
    · rcases mem_insertPri _ _ h with h2 | h2 <;> tauto
    · tauto
  | User =>
    simp only [PerPseudoElementSelectorMap.insertAt,
      PerPseudoElementSelectorMap.allRules, List.mem_append] at h ⊢
    rcases h with (h | h) | h
    · tauto
    · tauto
    · rcases mem_insertPri _ _ h with h2 | h2 <;> tauto

theorem mem_flat_alistModify {rule r : Rule}
    (l : List (PseudoElement × PerPseudoElementSelectorMap))
    (k : PseudoElement) (origin : Origin) (pri : Priority)
    (h : r ∈ (alistModify l k PerPseudoElementSelectorMap.new
        (fun m => m.insertAt origin pri rule)).flatMap
        (fun kv => kv.2.allRules)) :
    r ∈ l.flatMap (fun kv => kv.2.allRules) ∨ r = rule := by
  induction l with
  | nil =>
    simp only [alistModify, List.flatMap_cons, List.flatMap_nil,
      List.append_nil] at h
    rcases mem_insertAt _ _ _ h with h2 | h2
    · simp [PerPseudoElementSelectorMap.allRules,
        PerOriginSelectorMap.rulesList, PerPseudoElementSelectorMap.new,
        PerOriginSelectorMap.new, SelectorMap.new] at h2
    · exact Or.inr h2
  | cons kv t ih =>
    rcases kv with ⟨k2, v⟩
    by_cases hk : k2 = k
    · simp only [alistModify, if_pos hk, List.flatMap_cons,
        List.mem_append] at h ⊢
      rcases h with h | h
      · rcases mem_insertAt _ _ _ h with h2 | h2 <;> tauto
      · tauto
    · simp only [alistModify, if_neg hk, List.flatMap_cons,
        List.mem_append] at h ⊢
      rcases h with h | h
      · tauto
      · rcases ih h with h2 | h2 <;> tauto

theorem mem_insertEntry {r rule : Rule} (s : Stylist) (origin : Origin)
    (pri : Priority) (ps : Option PseudoElement)
    (h : r ∈ (s.insertEntry origin pri ps rule).allRules) :
    r ∈ s.allRules ∨ r = rule := by
  cases ps with
  | none =>
    simp only [Stylist.insertEntry, Stylist.allRules, List.mem_append] at h ⊢
    rcases h with h | h
    · rcases mem_insertAt _ _ _ h with h2 | h2 <;> tauto
    · tauto
  | some p =>
    simp only [Stylist.insertEntry, Stylist.allRules, List.mem_append] at h ⊢
    rcases h with h | h
    · tauto
    · rcases mem_flat_alistModify _ _ _ _ h with h2 | h2 <;> tauto

theorem mem_foldl_insert {r : Rule} (origin : Origin) (pri : Priority)
    (decls : List PropertyDeclaration) (so : Nat) :
    ∀ (sels : List Selector) (s : Stylist),
    r ∈ (sels.foldl (fun s sel => s.insertEntry origin pri sel.pseudo_element
        (mkRule sel decls so)) s).allRules →
    r ∈ s.allRules ∨ r.declarations.source_order = so := by
  intro sels
  induction sels with
  | nil => exact fun s h => Or.inl h
  | cons sel t ih =>
    intro s h
    rw [List.foldl_cons] at h
    rcases ih _ h with h2 | h2
    · rcases mem_insertEntry _ _ _ _ h2 with h3 | h3
      · exact Or.inl h3
      · right
        rw [h3]
        rfl
    · exact Or.inr h2

theorem mem_appendPriorityEntries {r : Rule} (s : Stylist) (origin : Origin)
    (pri : Priority) (sr : StyleRule) (so : Nat)
    (h : r ∈ (appendPriorityEntries s origin pri sr so).allRules) :
    r ∈ s.allRules ∨ r.declarations.source_order = so := by
  cases pri with
  | normal =>
    simp only [appendPriorityEntries] at h
    split at h
    · exact Or.inl h
    · exact mem_foldl_insert origin .normal sr.normal so sr.selectors s h
  | important =>
    simp only [appendPriorityEntries] at h
    split at h
    · exact Or.inl h
    · exact mem_foldl_insert origin .important sr.important so sr.selectors s h

theorem mem_addStyleRuleAt {r : Rule} (origin : Origin) (sr : StyleRule)
    (so : Nat) (s : Stylist)
    (h : r ∈ (addStyleRuleAt origin sr so s).allRules) :
    r ∈ s.allRules ∨ r.declarations.source_order = so := by
  simp only [addStyleRuleAt] at h
  rw [show ∀ (t : Stylist) (ds : List Nat),
      ({ t with state_deps := ds } : Stylist).allRules = t.allRules
    from fun t ds => rfl] at h
  rcases mem_appendPriorityEntries _ _ _ _ _ h with h2 | h2
  · rcases mem_appendPriorityEntries _ _ _ _ _ h2 with h3 | h3 <;> tauto
  · tauto

theorem foldl_counter (origin : Origin) (srs : List StyleRule)
    (s0 : Stylist) (c0 : Nat) :
    (srs.foldl (fun p sr => (addStyleRuleAt origin sr p.2 p.1, p.2 + 1))
      (s0, c0)).2 = c0 + srs.length := by
  induction srs generalizing s0 c0 with
  | nil => simp
  | cons sr t ih =>
    rw [List.foldl_cons, ih]
    simp
    omega

theorem precomputeStep_so (ctx : SelectorImplCtx) (s : Stylist) :
    (precomputeStep ctx s).rules_source_order = s.rules_source_order := by
  unfold precomputeStep
  refine foldl_proj_eq _ (fun st => st.rules_source_order) ?_
    ctx.precomputed_pseudos s
  intro st p
  cases h : alistGet st.pseudos_map p <;> simp [h]

/-- C3 (amended): the source-order counter advances once per effective
style rule — never reset mid-rebuild, so entries originating from distinct
style rules carry distinct source orders — but all entries created from a
single style rule (one per selector of a multi-selector rule, for each of
its normal/important slots) carry the same counter value, so such entries
can compare equal on (specificity, source order); the claim's per-entry
uniqueness is refuted by `spec_C3_counterexample`. -/
theorem spec_C3_source_order (ctx : SelectorImplCtx) (s : Stylist)
    (sheet : Stylesheet) (origin : Origin) (sr : StyleRule) (so : Nat) :
    (∀ r, r ∈ (addStyleRuleAt origin sr so s).allRules →
      r ∈ s.allRules ∨ r.declarations.source_order = so) ∧
    ((add_stylesheet ctx s sheet).rules_source_order =
      if sheet.is_effective_for_device s.device = true
      then s.rules_source_order + (effectiveStyleRules sheet s.device).length
      else s.rules_source_order) := by
  constructor
  · exact fun r h => mem_addStyleRuleAt origin sr so s h
  · unfold add_stylesheet
    split
    · rename_i hcond
      have he : sheet.is_effective_for_device s.device = false := by
        simpa using hcond
      simp [he]
    · rename_i hcond
      have he : sheet.is_effective_for_device s.device = true := by
        simpa using hcond
      rw [precomputeStep_so]
      simp only [he, if_true]
      exact foldl_counter sheet.origin (effectiveStyleRules sheet s.device) s
        s.rules_source_order

/-- C10: invoking the cascade lookup with a pseudo-element target whose
selector-map scope does not exist hits the unchecked unwrap: the total
embedding returns the missing-scope error (a panic in the source) rather
than an empty declaration list, whenever the pseudo-element is absent from
the map. -/
theorem spec_C10_missing_scope (s : Stylist) (e : Element) (bf : Option Unit)
    (init : List DeclarationBlock) (p : PseudoElement)
    (hd : s.is_device_dirty = false)
    (hm : alistGet s.pseudos_map p = none) :
    push_applicable_declarations s e bf none (some p) init =
      .error .missingPseudoMap := by
  simp [push_applicable_declarations, hd, targetMap, hm]

/-! Concrete instances used by the witnesses and counterexamples. -/

/-- A `SelectorImplCtx` with no pseudo-elements and no built-in sheets. -/
def ctx0 : SelectorImplCtx :=
  { eager_pseudos := [], precomputed_pseudos := [], ua_stylesheets := [],
    quirks_stylesheet := none }

/-- A clean stylist with empty rule storage. -/
def stEmpty : Stylist :=
  { device := 0, viewport_constraints := none, quirks_mode := false,
    is_device_dirty := false,
    element_map := PerPseudoElementSelectorMap.new,
    pseudos_map := [], precomputed_pseudo_element_decls := [],
    rules_source_order := 0, state_deps := [] }

/-- An author-origin selector of specificity 1 matching compound id 5. -/
def selA : Selector :=
  { compound := 5, pseudo_element := none, specificity := 1,
    universal := false, prevents_sharing := false }

/-- A stylist holding one author important rule built from `selA`. -/
def stC1 : Stylist :=
  { stEmpty with
    element_map :=
      { PerPseudoElementSelectorMap.new with
        author :=
          { PerOriginSelectorMap.new with
            important := SelectorMap.new.insert (mkRule selA [9] 0) } } }

/-- An element matching compound id 5, with no presentational hints. -/
def elC1 : Element := { matched := [5], preshints := [] }

/-- A style attribute whose important sub-block is nonempty. -/
def saC1 : PropertyDeclarationBlock := { normal := [], important := [7] }

/-- C1 counterexample: with one matching author important rule and a style
attribute carrying an important declaration, the source delivers the author
important block at an earlier position than the style attribute's important
block, whereas the order the spec's steps 6 and 7 assert
(`specOrderDeclarations`) puts the style attribute's important block first
— so declarations of the claim's step 6 appear after declarations of its
step 7. -/
theorem spec_C1_counterexample :
    push_applicable_declarations stC1 elC1 none (some saC1) none [] =
      .ok ([DeclarationBlock.from_declarations [],
            (mkRule selA [9] 0).declarations,
            DeclarationBlock.from_declarations [7]], false) ∧
    specOrderDeclarations stC1.element_map elC1 (some saC1) [] =
      [DeclarationBlock.from_declarations [],
       DeclarationBlock.from_declarations [7],
       (mkRule selA [9] 0).declarations] ∧
    [DeclarationBlock.from_declarations [],
     (mkRule selA [9] 0).declarations,
     DeclarationBlock.from_declarations [7]] ≠
      specOrderDeclarations stC1.element_map elC1 (some saC1) [] :=
  ⟨rfl, rfl, by decide⟩

/-- Witness for C1's amended ordering theorem at a concrete input. -/
theorem spec_C1_witness :
    push_applicable_declarations stC1 elC1 none (some saC1) none [] =
      .ok ([] ++ matchedDecls stC1.element_map.user_agent.normal elC1
        ++ elC1.preshints
        ++ matchedDecls stC1.element_map.user.normal elC1
        ++ matchedDecls stC1.element_map.author.normal elC1
        ++ saNormalSeg (some saC1)
        ++ matchedDecls stC1.element_map.author.important elC1
        ++ saImportantSeg (some saC1)
        ++ matchedDecls stC1.element_map.user.important elC1
        ++ matchedDecls stC1.element_map.user_agent.important elC1,
        pushShareable stC1.element_map elC1 (some saC1)) :=
  spec_C1_step_order stC1 elC1 none (some saC1) none [] stC1.element_map
    rfl rfl rfl

/-- A presentational-hint declaration block. -/
def hintBlockC2 : DeclarationBlock :=
  { specificity := 0, declarations := [42], source_order := 0 }

/-- A stylist with an (empty) scope for pseudo-element 7. -/
def stC2 : Stylist :=
  { stEmpty with pseudos_map := [(7, PerPseudoElementSelectorMap.new)] }

/-- An element synthesizing one presentational hint. -/
def elC2 : Element := { matched := [], preshints := [hintBlockC2] }

/-- A parent computed style. -/
def parentC2 : ComputedValues := .cascade 0 [] none

/-- C2 counterexample: the lazy pseudo-element cascade still appends the
element's presentational hints — the computed declarations contain the hint
block, and differ from the hint-free declarations the claim's exclusion
would produce. -/
theorem spec_C2_counterexample :
    lazily_compute_pseudo_element_style stC2 elC2 7 parentC2 =
      .ok (some (ComputedValues.cascade 0 [hintBlockC2] (some parentC2))) ∧
    ComputedValues.cascade 0 [hintBlockC2] (some parentC2) ≠
      ComputedValues.cascade 0 [] (some parentC2) :=
  ⟨rfl, by simp [hintBlockC2]⟩

/-- Witness for C2's amended theorem at a concrete input. -/
theorem spec_C2_witness :
    lazily_compute_pseudo_element_style stC2 elC2 7 parentC2 =
      .ok (some (properties_cascade stC2.device
        (matchedDecls PerPseudoElementSelectorMap.new.user_agent.normal elC2
          ++ elC2.preshints
          ++ matchedDecls PerPseudoElementSelectorMap.new.user.normal elC2
          ++ matchedDecls PerPseudoElementSelectorMap.new.author.normal elC2
          ++ matchedDecls PerPseudoElementSelectorMap.new.author.important elC2
          ++ matchedDecls PerPseudoElementSelectorMap.new.user.important elC2
          ++ matchedDecls PerPseudoElementSelectorMap.new.user_agent.important elC2)
        (some parentC2))) :=
  (spec_C2_lazy_pseudo stC2 elC2 7 parentC2 PerPseudoElementSelectorMap.new
    rfl).2 rfl

/-- First selector of the two-selector style rule, specificity 1. -/
def sel1 : Selector :=
  { compound := 10, pseudo_element := none, specificity := 1,
    universal := false, prevents_sharing := false }

/-- Second selector of the two-selector style rule, also specificity 1. -/
def sel2 : Selector :=
  { compound := 11, pseudo_element := none, specificity := 1,
    universal := false, prevents_sharing := false }

/-- An always-effective author stylesheet holding one style rule with two
selectors and both normal and important declarations. -/
def sheet3 : Stylesheet :=
  { origin := .Author, media := fun _ => true,
    rules := [CSSRule.style (StyleRule.mk [sel1, sel2] [1] [2])] }

/-- C3 counterexample: one rebuild over a rule with two equal-specificity
selectors stores two distinct entries that compare equal on
(specificity, source order). -/
theorem spec_C3_counterexample :
    (update ctx0 (Stylist.new ctx0 0) [sheet3]
        true).1.element_map.author.normal.rules =
      [mkRule sel1 [1] 0, mkRule sel2 [1] 0] ∧
    mkRule sel1 [1] 0 ≠ mkRule sel2 [1] 0 ∧
    (mkRule sel1 [1] 0).declarations.specificity =
      (mkRule sel2 [1] 0).declarations.specificity ∧
    (mkRule sel1 [1] 0).declarations.source_order =
      (mkRule sel2 [1] 0).declarations.source_order :=
  ⟨rfl, by decide, rfl, rfl⟩

/-- Witness for C3's amended theorem at a concrete input. -/
theorem spec_C3_witness :
    mkRule sel2 [1] 5 ∈ (Stylist.new ctx0 0).allRules ∨
      (mkRule sel2 [1] 5).declarations.source_order = 5 :=
  (spec_C3_source_order ctx0 (Stylist.new ctx0 0) sheet3 .Author
    { selectors := [sel1, sel2], normal := [1], important := [2] } 5).1
    (mkRule sel2 [1] 5) (by decide)

/-- Witness for C5's no-op theorem at a concrete input. -/
theorem spec_C5_witness : update ctx0 stEmpty [] false = (stEmpty, false) :=
  (spec_C5_update_noop ctx0 stEmpty []).1 rfl

/-- An empty, always-effective quirks-mode stylesheet. -/
def sheetQ : Stylesheet :=
  { origin := .UserAgent, media := fun _ => true, rules := [] }

/-- A context supplying a quirks-mode stylesheet. -/
def ctx6 : SelectorImplCtx :=
  { eager_pseudos := [], precomputed_pseudos := [], ua_stylesheets := [],
    quirks_stylesheet := some sheetQ }

/-- A stylist whose device is dirty, forcing a rebuild. -/
def st6 : Stylist := { stEmpty with is_device_dirty := true }

/-- Witness for C6's rebuild theorem at a concrete input. -/
theorem spec_C6_witness :
    update ctx6 st6 [] true =
      ({ (ctx6.ua_stylesheets ++ (if st6.quirks_mode then [sheetQ] else [])
          ++ []).foldl (add_stylesheet ctx6) (clearRuleStorage ctx6 st6) with
          is_device_dirty := false }, true) :=
  (spec_C6_update_rebuild ctx6 st6 [] true sheetQ rfl rfl).1

/-- C7 counterexample: both stated preconditions hold in negated form (the
stylist is clean and no style attribute accompanies the pseudo-element),
yet the call does not return normally — the missing scope for the targeted
pseudo-element hits the unchecked unwrap. -/
theorem spec_C7_counterexample :
    stEmpty.is_device_dirty = false ∧
    (((none : Option PropertyDeclarationBlock).isSome &&
      (some (0 : PseudoElement)).isSome) = false) ∧
    push_applicable_declarations stEmpty elC1 none none (some 0) [] =
      .error .missingPseudoMap :=
  ⟨rfl, rfl, rfl⟩

/-- Witness for C7's amended contract theorem at a concrete input. -/
theorem spec_C7_witness :
    ∃ r, push_applicable_declarations stEmpty elC1 none none none [] =
      .ok r :=
  (spec_C7_push_contract stEmpty elC1 none none none []).2.2 rfl rfl rfl

/-- A media query true exactly on device 0. -/
def mq0 : MediaQuery := fun d => d == 0

/-- A stylesheet holding one media rule built from `mq0`. -/
def sheet8 : Stylesheet :=
  { origin := .Author, media := fun _ => true, rules := [.media mq0 []] }

/-- Witness for C8's dirty-flag theorem at a concrete input: moving from
device 0 to device 1 flips `mq0`, so the stylist becomes dirty. -/
theorem spec_C8_witness :
    (set_device stEmpty 1 [sheet8]).is_device_dirty = true :=
  (spec_C8_set_device_dirty stEmpty 1 [sheet8]).2
    ⟨sheet8, by simp, mq0, by simp [mediaRules, sheet8], by decide⟩

/-- Witness for C9's shareable-flag theorem at a concrete input. -/
theorem spec_C9_witness :
    (true : Bool) = true ↔
      (elC1.preshints = [] ∧
        (none : Option PropertyDeclarationBlock) = none ∧
        shareAllowed stEmpty.element_map.user_agent.normal elC1 = true ∧
        shareAllowed stEmpty.element_map.user.normal elC1 = true ∧
        shareAllowed stEmpty.element_map.author.normal elC1 = true ∧
        shareAllowed stEmpty.element_map.author.important elC1 = true ∧
        shareAllowed stEmpty.element_map.user.important elC1 = true ∧
        shareAllowed stEmpty.element_map.user_agent.important elC1 = true) :=
  spec_C9_shareable stEmpty elC1 none none none [] [] true
    stEmpty.element_map rfl rfl rfl rfl

/-- Witness for C10's missing-scope theorem at a concrete input: scope 3
does not exist in a map holding only scope 7. -/
theorem spec_C10_witness :
    push_applicable_declarations stC2 elC2 none none (some 3) [] =
      .error .missingPseudoMap :=
  spec_C10_missing_scope stC2 elC2 none [] 3 rfl rfl

end Servo
